import Mathlib

/-!
Shallow embedding of the three provisioning scripts of the
`python_setup_ds_101` repository:

* `installs_required.py`      — namespace `InstallsRequired`
* `install_vscode_extensions.py` — namespace `VSCodeExt`
* `setup_python_environment.py`  — namespace `SetupEnv`

The external world (interpreter version, which imports resolve, which
subprocess invocations exit with status zero, which files exist) is
modelled by an oracle record per script.  Each embedded function returns,
besides its Python return value, the list of acquisition actions it
issues, so that theorems can speak about which external commands a run
invokes and in which order.
-/

/-- An acquisition action issued by a script: an external process
invocation (with its argument vector, optional timeout in seconds, and
whether the output streams are captured), an in-process NLTK data
download, a recursive directory removal, or a virtual-environment
creation. -/
inductive Acq where
  | proc (args : List String) (timeout : Option Nat) (capture : Bool)
  | nltkDownload (package : String)
  | rmtree (path : String)
  | venvCreate (path : String)
deriving DecidableEq, Repr

/-- Whether an acquisition action runs with a bounded timeout. -/
def Acq.bounded : Acq → Bool
  | .proc _ t _ => t.isSome
  | _ => false

/-- Whether an acquisition action captures the output streams
(standard output and standard error) of the invoked process. -/
def Acq.captures : Acq → Bool
  | .proc _ _ c => c
  | _ => false

/-- Per-capability outcome, following the distinct control-flow paths of
the scripts (distinguished in the code by the printed messages and the
returned booleans). -/
inductive Outcome where
  | alreadySatisfied
  | newlySatisfied
  | failed
  | skipped
deriving DecidableEq, Repr

/-- Operating system, as reported by `platform.system()`. -/
inductive OSKind where
  | windows
  | darwin
  | linux
deriving DecidableEq, Repr

/-- Stand-in for `sys.executable` of the ambient interpreter. -/
def pythonExe : String := "python"

/-- Characters of the prefix of `l` strictly before the first occurrence
of the character `<`; embeds Python `s.split(chr(60))[0]`. -/
def takeUntilLt : List Char → List Char
  | [] => []
  | c :: cs => if c = '<' then [] else c :: takeUntilLt cs

/-- Characters of the prefix of `l` strictly before the first occurrence
of the two-character pattern `>=`; embeds Python `s.split(">=")[0]`. -/
def takeUntilGe : List Char → List Char
  | [] => []
  | c :: cs => if c = '>' && cs.head? = some '=' then [] else c :: takeUntilGe cs

/-- Derivation of the import name from a package name, embedding
`package_name.split(">=")[0].split("<")[0]` from
`installs_required.check_and_install_package`. -/
def deriveImportName (s : String) : String :=
  String.mk (takeUntilLt (takeUntilGe s.data))

/-- Characters of the prefix of `l` strictly before the first position
at which either `>=` or `<` starts.  This follows the spec wording:
everything from the first occurrence of one of the two version-specifier
markers onward is removed. -/
def takeUntilSpec : List Char → List Char
  | [] => []
  | c :: cs =>
    if c = '<' then []
    else if c = '>' && cs.head? = some '=' then []
    else c :: takeUntilSpec cs

/-- The spec-side description of the import-name derivation: the package
name truncated at the first `>=` or `<`. -/
def specStripVersion (s : String) : String :=
  String.mk (takeUntilSpec s.data)

namespace InstallsRequired

/-- Oracle for the environment `installs_required.py` runs in. -/
structure IREnv where
  /-- `sys.version_info[:2]` of the ambient interpreter. -/
  pythonVersion : Nat × Nat
  /-- Whether `__import__(name)` succeeds for a module name. -/
  importOk : String → Bool
  /-- Whether `pip install --upgrade <pkg>` exits with status zero. -/
  pipOk : String → Bool
  /-- Whether `pip install --upgrade pip` exits with status zero. -/
  pipUpgradeOk : Bool
  /-- Whether `nltk.data.find(path)` succeeds for a data path. -/
  nltkFindOk : String → Bool
  /-- Whether `spacy.load(model)` succeeds for a model name. -/
  spacyLoadOk : String → Bool
  /-- Whether `spacy download <model>` exits with status zero. -/
  spacyDownloadOk : String → Bool
  /-- Whether the GeoNames database file exists with size greater zero. -/
  geoDbExistsNonempty : Bool
  /-- Whether `geoparser.Geoparser()` instantiates without exception. -/
  geoInstantiateOk : Bool
  /-- Whether `geoparser download geonames` exits with status zero. -/
  geoDownloadOk : Bool

/-- Embeds `check_python_version`: `sys.version_info[:2] < (3, 8)` is
the (lexicographic) failure condition. -/
def check_python_version (v : Nat × Nat) : Bool :=
  !(v.1 < 3 || (v.1 = 3 && v.2 < 8))

/-- The `pip install --upgrade <pkg>` invocation issued by
`check_and_install_package` via `subprocess.check_call` (no timeout
argument, output streams not captured). -/
def pipInstallCmd (pkg : String) : Acq :=
  .proc [pythonExe, "-m", "pip", "install", "--upgrade", pkg] none false

/-- Result of one capability step: its outcome and the acquisition
actions it issued. -/
structure Step where
  outcome : Outcome
  acqs : List Acq
deriving DecidableEq, Repr

/-- Embeds `check_and_install_package(package_name, import_name=None)`:
derive the import name if not given, probe the import, and on
`ImportError` run `pip install --upgrade` trusting its exit status. -/
def check_and_install_package (env : IREnv) (packageName : String)
    (importName : Option String) : Step :=
  let impName :=
    match importName with
    | some n => n
    | none => deriveImportName packageName
  if env.importOk impName then ⟨.alreadySatisfied, []⟩
  else if env.pipOk packageName then ⟨.newlySatisfied, [pipInstallCmd packageName]⟩
  else ⟨.failed, [pipInstallCmd packageName]⟩

/-- The `pip install --upgrade pip` invocation of `upgrade_pip`. -/
def pipSelfUpgradeCmd : Acq :=
  .proc [pythonExe, "-m", "pip", "install", "--upgrade", "pip"] none false

/-- The NLTK data packages checked by `check_and_download_nltk_data`,
as pairs of download name and lookup path. -/
def nltkDataPackages : List (String × String) :=
  [("punkt", "tokenizers/punkt"), ("vader_lexicon", "vader_lexicon")]

/-- Embeds `check_and_download_nltk_data`: skipped entirely when `nltk`
does not import; otherwise each data package is downloaded exactly when
`nltk.data.find` raises `LookupError`. -/
def check_and_download_nltk_data (env : IREnv) : List Acq :=
  if env.importOk "nltk" then
    (nltkDataPackages.map (fun pp =>
      if env.nltkFindOk pp.2 then [] else [Acq.nltkDownload pp.1])).flatten
  else []

/-- The spaCy models requested by `check_and_download_spacy_model`. -/
def spacyModels : List String :=
  ["en_core_web_sm", "en_core_web_md", "en_core_web_trf"]

/-- The `spacy download <model>` invocation (`subprocess.check_call`,
no timeout, streams not captured). -/
def spacyDownloadCmd (model : String) : Acq :=
  .proc [pythonExe, "-m", "spacy", "download", model] none false

/-- Embeds `check_and_download_spacy_model`: skipped when `spacy` does
not import; otherwise each model is downloaded exactly when
`spacy.load` raises `OSError`. -/
def check_and_download_spacy_model (env : IREnv) : List Acq :=
  if env.importOk "spacy" then
    (spacyModels.map (fun m =>
      if env.spacyLoadOk m then [] else [spacyDownloadCmd m])).flatten
  else []

/-- The `geoparser download geonames` invocation
(`subprocess.check_call`, no timeout, streams not captured). -/
def geoDownloadCmd : Acq :=
  .proc [pythonExe, "-m", "geoparser", "download", "geonames"] none false

/-- Embeds `check_and_setup_geoparser`.  The executed control flow is:
if `geoparser` does not import, return `False`; if `appdirs` imports,
probe the database file and, when present, try to instantiate
`Geoparser` (returning `True` on success); in every other branch of the
`appdirs` path the function body runs off its end and returns `None`
without downloading.  Only when importing `appdirs` raises
`ImportError` does the `ImportError` handler run the download command,
returning the truth of its exit status. -/
def check_and_setup_geoparser (env : IREnv) : Option Bool × List Acq :=
  if !env.importOk "geoparser" then (some false, [])
  else if env.importOk "appdirs" then
    if env.geoDbExistsNonempty then
      if env.geoInstantiateOk then (some true, [])
      else (none, [])
    else (none, [])
  else
    if env.geoDownloadOk then (some true, [geoDownloadCmd])
    else (some false, [geoDownloadCmd])

/-- The `core_packages` list of `main`. -/
def corePackages : List String :=
  ["jupyterlab", "ipywidgets", "notebook", "pandas", "matplotlib",
   "plotly", "mapclassify", "tqdm", "praw", "nltk", "spacy", "geoparser",
   "transformers", "torch", "scipy", "cryptography"]

/-- The `essential_packages` list of `main`. -/
def essentialPackages : List String := ["jupyterlab"]

/-- Outcome of a whole run of `main`: process exit status, one recorded
outcome per package capability in processing order, the preparatory
(non-capability) commands, and the capability acquisition commands in
order of issue. -/
structure IRRun where
  exit : Nat
  results : List (String × Outcome)
  prep : List Acq
  acqs : List Acq
deriving DecidableEq, Repr

/-- Embeds `main` of `installs_required.py`: abort with exit status 1
when the interpreter version check fails; otherwise upgrade pip, install
the essential package first, then every other core package (collecting
failures without aborting), then set up NLTK data, spaCy models and the
geoparser database, and finish with exit status 0. -/
def main (env : IREnv) : IRRun :=
  if !check_python_version env.pythonVersion then ⟨1, [], [], []⟩
  else
    let essSteps := essentialPackages.map
      (fun p => (p, check_and_install_package env p none))
    let restSteps := (corePackages.filter
      (fun p => !essentialPackages.contains p)).map
      (fun p => (p, check_and_install_package env p none))
    let steps := essSteps ++ restSteps
    ⟨0,
     steps.map (fun s => (s.1, s.2.outcome)),
     [pipSelfUpgradeCmd],
     (steps.map (fun s => s.2.acqs)).flatten
       ++ check_and_download_nltk_data env
       ++ check_and_download_spacy_model env
       ++ (check_and_setup_geoparser env).2⟩

end InstallsRequired

namespace VSCodeExt

/-- Result of `subprocess.run([vscode_cmd, "--install-extension", id])`
for a given extension id: exit status zero, nonzero exit status,
`TimeoutExpired`, `FileNotFoundError`, or any other exception. -/
inductive ExtResult where
  | ok
  | err
  | timedOut
  | notFound
  | other
deriving DecidableEq, Repr

/-- Oracle for the environment `install_vscode_extensions.py` runs in. -/
structure VEnv where
  /-- Whether `shutil.which(cmd)` finds the command. -/
  whichOk : String → Bool
  /-- Whether `[cmd, "--version"]` exits zero within its 10 s timeout
  (false also on `TimeoutExpired` or any exception). -/
  probeOk : String → Bool
  /-- `platform.system()`. -/
  system : OSKind
  /-- Whether `os.path.exists(path)` holds. -/
  pathExists : String → Bool
  /-- Whether `[path, "--version"]` for an absolute candidate path exits
  zero within its timeout. -/
  pathProbeOk : String → Bool
  /-- The `USERNAME` environment variable (empty when unset). -/
  username : String
  /-- Result of the install invocation for each extension id. -/
  extResult : String → ExtResult

/-- The command names probed on the search path. -/
def vscodeCandidates : List String := ["code", "code-insiders"]

/-- The common Windows installation paths probed when no search-path
candidate works. -/
def windowsPaths (username : String) : List String :=
  ["C:\\Program Files\\Microsoft VS Code\\bin\\code.cmd",
   "C:\\Program Files (x86)\\Microsoft VS Code\\bin\\code.cmd",
   "C:\\Users\\" ++ username ++ "\\AppData\\Local\\Programs\\Microsoft VS Code\\bin\\code.cmd",
   "C:\\Program Files\\Microsoft VS Code\\Code.exe",
   "C:\\Program Files (x86)\\Microsoft VS Code\\Code.exe",
   "C:\\Users\\" ++ username ++ "\\AppData\\Local\\Programs\\Microsoft VS Code\\Code.exe"]

/-- The macOS application-bundle path probed when no search-path
candidate works. -/
def macPath : String :=
  "/Applications/Visual Studio Code.app/Contents/Resources/app/bin/code"

/-- Embeds `check_vscode_installed`: first command name that is on the
search path and answers the version probe with exit status zero;
otherwise, on Windows or macOS, the first existing well-known
installation path that answers the probe; otherwise `None`. -/
def check_vscode_installed (env : VEnv) : Option String :=
  match vscodeCandidates.find? (fun c => env.whichOk c && env.probeOk c) with
  | some c => some c
  | none =>
    match env.system with
    | .windows =>
      (windowsPaths env.username).find?
        (fun p => env.pathExists p && env.pathProbeOk p)
    | .darwin =>
      if env.pathExists macPath && env.pathProbeOk macPath then some macPath
      else none
    | .linux => none

/-- The `--install-extension` invocation of `install_extension`
(`subprocess.run` with `capture_output=True` and `timeout=60`). -/
def installExtCmd (vscodeCmd extId : String) : Acq :=
  .proc [vscodeCmd, "--install-extension", extId] (some 60) true

/-- Embeds `install_extension`: the install command is always invoked
(there is no prior detection step), and the function returns `True`
exactly when the command exits with status zero; timeout, missing
command and any other exception all yield `False`. -/
def install_extension (env : VEnv) (vscodeCmd extId : String) :
    Bool × List Acq :=
  (match env.extResult extId with
   | .ok => true
   | _ => false,
   [installExtCmd vscodeCmd extId])

/-- The extension list of `main`, as pairs of id and display name. -/
def extensions : List (String × String) :=
  [("ms-python.python", "Python"),
   ("ms-python.pylint", "Pylint (Python Linting)"),
   ("ms-toolsai.jupyter", "Jupyter"),
   ("ms-toolsai.jupyter-keymap", "Jupyter Keymap"),
   ("ms-toolsai.jupyter-renderers", "Jupyter Notebook Renderers"),
   ("mechatroner.rainbow-csv", "Rainbow CSV"),
   ("GrapeCity.gc-excelviewer", "Excel Viewer"),
   ("ms-vscode.vscode-json", "JSON Language Features"),
   ("redhat.vscode-yaml", "YAML Support"),
   ("yzhang.markdown-all-in-one", "Markdown All in One"),
   ("shd101wyy.markdown-preview-enhanced", "Markdown Preview Enhanced"),
   ("ms-vscode.vscode-typescript-next", "TypeScript and JavaScript"),
   ("ms-vscode-remote.vscode-remote-extensionpack", "Remote Development"),
   ("streetsidesoftware.code-spell-checker", "Code Spell Checker")]

/-- Outcome of a whole run of `main` of the extension installer. -/
structure VRun where
  exit : Nat
  results : List (String × Bool)
  acqs : List Acq
deriving DecidableEq, Repr

/-- Embeds `main` of `install_vscode_extensions.py`: exit status 1 with
no acquisition when no working editor command is found; otherwise every
extension is attempted in list order, failures are collected without
aborting, and the run finishes with exit status 0. -/
def main (env : VEnv) : VRun :=
  match check_vscode_installed env with
  | none => ⟨1, [], []⟩
  | some cmd =>
    let steps := extensions.map
      (fun e => (e.1, install_extension env cmd e.1))
    ⟨0,
     steps.map (fun s => (s.1, s.2.1)),
     (steps.map (fun s => s.2.2)).flatten⟩

end VSCodeExt

namespace SetupEnv

/-- JSON value, as read from and written to the editor settings file. -/
inductive JVal where
  | str : String → JVal
  | arr : List JVal → JVal
  | obj : List (String × JVal) → JVal

/-- Oracle for the environment `setup_python_environment.py` runs in. -/
structure SEnv where
  /-- `sys.version_info[:2]` of the ambient interpreter. -/
  pythonVersion : Nat × Nat
  /-- `platform.system()`. -/
  system : OSKind
  /-- Whether a directory already exists at the environment path. -/
  venvDirExists : Bool
  /-- Whether `shutil.rmtree` of the existing directory succeeds. -/
  rmtreeOk : Bool
  /-- Whether `venv.create(..., with_pip=True)` succeeds. -/
  venvCreateOk : Bool
  /-- Whether `pip install --upgrade pip` in the environment exits zero. -/
  pipVenvUpgradeOk : Bool
  /-- Whether `pip install --upgrade <pkg>` in the environment exits
  zero. -/
  pipVenvOk : String → Bool
  /-- Whether the `ipykernel install` registration exits zero. -/
  kernelOk : Bool
  /-- Whether writing the editor settings file succeeds. -/
  settingsOk : Bool
  /-- Whether the NLTK setup script run exits zero. -/
  nltkOk : Bool
  /-- Whether `spacy download <model>` in the environment exits zero. -/
  spacyVenvOk : String → Bool
  /-- Whether `geoparser download geonames` in the environment exits
  zero. -/
  geoVenvOk : Bool

/-- Embeds `check_python_version` of `setup_python_environment.py`
(same comparison as in `installs_required.py`). -/
def check_python_version (v : Nat × Nat) : Bool :=
  !(v.1 < 3 || (v.1 = 3 && v.2 < 8))

/-- The fixed relative name of the environment directory
(`venv_name = "ds101_env"`; the absolute script directory it is joined
with is abstracted away). -/
def venvName : String := "ds101_env"

/-- Embeds `get_venv_python`: the interpreter path inside the
environment. -/
def get_venv_python (system : OSKind) (venvPath : String) : String :=
  match system with
  | .windows => venvPath ++ "\\Scripts\\python.exe"
  | _ => venvPath ++ "/bin/python"

/-- Embeds `create_virtual_environment`: when a directory already
exists at the target path it is removed recursively first, then a fresh
environment is created; any exception (from the removal or the
creation) yields `False`.  Returns the success flag and the issued
actions in order. -/
def create_virtual_environment (env : SEnv) (venvPath : String) :
    Bool × List Acq :=
  if env.venvDirExists then
    if !env.rmtreeOk then (false, [Acq.rmtree venvPath])
    else if env.venvCreateOk then
      (true, [Acq.rmtree venvPath, Acq.venvCreate venvPath])
    else (false, [Acq.rmtree venvPath, Acq.venvCreate venvPath])
  else
    if env.venvCreateOk then (true, [Acq.venvCreate venvPath])
    else (false, [Acq.venvCreate venvPath])

/-- The in-environment `pip install --upgrade <pkg>` invocation of
`install_package_in_venv` (`subprocess.check_call`, no timeout, streams
not captured). -/
def pipVenvCmd (system : OSKind) (venvPath pkg : String) : Acq :=
  .proc [get_venv_python system venvPath, "-m", "pip", "install",
         "--upgrade", pkg] none false

/-- The in-environment `pip install --upgrade pip` invocation of
`upgrade_pip_in_venv`. -/
def pipVenvUpgradeCmd (system : OSKind) (venvPath : String) : Acq :=
  .proc [get_venv_python system venvPath, "-m", "pip", "install",
         "--upgrade", "pip"] none false

/-- The kernel-registration invocation of `setup_jupyter_kernel`. -/
def kernelCmd (system : OSKind) (venvPath : String) : Acq :=
  .proc [get_venv_python system venvPath, "-m", "ipykernel", "install",
         "--user", "--name", "ds101",
         "--display-name", "Python (Digital Studies 101)"] none false

/-- The NLTK setup invocation of `check_and_download_nltk_data`: the
environment interpreter run with `-c` on an inline download script
(whose source text is abbreviated here; its content plays no role in
any theorem). -/
def nltkCmd (system : OSKind) (venvPath : String) : Acq :=
  .proc [get_venv_python system venvPath, "-c", "nltk-download-script"]
    none false

/-- The spaCy models requested by `check_and_download_spacy_model` of
the environment setup script. -/
def spacyModels : List String := ["en_core_web_sm", "en_core_web_md"]

/-- The in-environment `spacy download <model>` invocation. -/
def spacyVenvCmd (system : OSKind) (venvPath model : String) : Acq :=
  .proc [get_venv_python system venvPath, "-m", "spacy", "download",
         model] none false

/-- The in-environment `geoparser download geonames` invocation of
`setup_geoparser`. -/
def geoVenvCmd (system : OSKind) (venvPath : String) : Acq :=
  .proc [get_venv_python system venvPath, "-m", "geoparser", "download",
         "geonames"] none false

/-- The settings written by `create_vscode_settings`, as a mapping from
setting name to value. -/
def newSettings (venvPython : String) : String → Option JVal := fun k =>
  if k = "python.pythonPath" then some (.str venvPython)
  else if k = "python.defaultInterpreterPath" then some (.str venvPython)
  else if k = "jupyter.kernels.filter" then
    some (.arr [.obj [("path", .str venvPython),
                      ("type", .str "pythonEnvironment")]])
  else none

/-- Embeds Python `dict.update`: the updated mapping answers with the
update's value where the update has one and with the original value
elsewhere. -/
def dictUpdate (d u : String → Option JVal) : String → Option JVal :=
  fun k =>
    match u k with
    | some v => some v
    | none => d k

/-- Embeds the merge performed by `create_vscode_settings`: when a
settings file already exists (and parses to the given mapping), the new
settings are merged over it via `dict.update`; otherwise the new
settings alone are written. -/
def create_vscode_settings (existing : Option (String → Option JVal))
    (venvPython : String) : String → Option JVal :=
  match existing with
  | some e => dictUpdate e (newSettings venvPython)
  | none => newSettings venvPython

/-- The `packages` list of `main`. -/
def packages : List String :=
  ["ipykernel", "jupyterlab", "jupyter", "ipywidgets", "notebook",
   "pandas", "numpy", "matplotlib", "seaborn", "plotly", "mapclassify",
   "tqdm", "praw", "nltk", "spacy", "geoparser", "transformers",
   "torch", "scipy", "scikit-learn", "cryptography", "requests"]

/-- The `essential_packages` list of `main`. -/
def essentialPackages : List String := ["ipykernel", "jupyterlab", "jupyter"]

/-- Outcome of a whole run of `main` of the environment setup script:
exit status, one per-package install result in processing order, and
the issued acquisition actions in order. -/
structure SRun where
  exit : Nat
  results : List (String × Bool)
  acqs : List Acq
deriving DecidableEq, Repr

/-- Embeds `main` of `setup_python_environment.py`: abort with exit
status 1 when the version check fails or the environment cannot be
created; always recreate the environment and upgrade pip in it; install
the three essential Jupyter packages first and abort with exit status 1
when any of them failed; then install the remaining packages
(collecting failures without aborting); abort with exit status 1 when
the kernel registration fails; finally write the editor settings and
unconditionally run the NLTK, spaCy and geoparser downloads, finishing
with exit status 0. -/
def main (env : SEnv) : SRun :=
  if !check_python_version env.pythonVersion then ⟨1, [], []⟩
  else
    let venv := create_virtual_environment env venvName
    if !venv.1 then ⟨1, [], venv.2⟩
    else
      let prelude := venv.2 ++ [pipVenvUpgradeCmd env.system venvName]
      let essSteps := essentialPackages.map (fun p => (p, env.pipVenvOk p))
      let essActs := essentialPackages.map (pipVenvCmd env.system venvName)
      if essSteps.any (fun s => !s.2) then
        ⟨1, essSteps, prelude ++ essActs⟩
      else
        let restPkgs := packages.filter (fun p => !essentialPackages.contains p)
        let restSteps := restPkgs.map (fun p => (p, env.pipVenvOk p))
        let restActs := restPkgs.map (pipVenvCmd env.system venvName)
        let beforeKernel := prelude ++ essActs ++ restActs
        if !env.kernelOk then
          ⟨1, essSteps ++ restSteps,
           beforeKernel ++ [kernelCmd env.system venvName]⟩
        else
          ⟨0, essSteps ++ restSteps,
           beforeKernel ++ [kernelCmd env.system venvName]
             ++ [nltkCmd env.system venvName]
             ++ spacyModels.map (spacyVenvCmd env.system venvName)
             ++ [geoVenvCmd env.system venvName]⟩

end SetupEnv

/-- A fully healthy, fully satisfied environment for
`installs_required.py`: every import resolves, every command exits
zero, all data assets are present. -/
def irEnvAllGood : InstallsRequired.IREnv where
  pythonVersion := (3, 12)
  importOk := fun _ => true
  pipOk := fun _ => true
  pipUpgradeOk := true
  nltkFindOk := fun _ => true
  spacyLoadOk := fun _ => true
  spacyDownloadOk := fun _ => true
  geoDbExistsNonempty := true
  geoInstantiateOk := true
  geoDownloadOk := true

/-- An environment for `installs_required.py` in which only `geoparser`
and `appdirs` import, every `pip install` exits zero, and no data asset
is present: package detection is unsatisfied while acquisition reports
success. -/
def irEnvUnsat : InstallsRequired.IREnv where
  pythonVersion := (3, 12)
  importOk := fun s => s == "geoparser" || s == "appdirs"
  pipOk := fun _ => true
  pipUpgradeOk := true
  nltkFindOk := fun _ => false
  spacyLoadOk := fun _ => false
  spacyDownloadOk := fun _ => true
  geoDbExistsNonempty := false
  geoInstantiateOk := false
  geoDownloadOk := true

/-- An environment whose interpreter is Python 3.7, below the required
minimum. -/
def irEnvBadVersion : InstallsRequired.IREnv where
  pythonVersion := (3, 7)
  importOk := fun _ => false
  pipOk := fun _ => false
  pipUpgradeOk := false
  nltkFindOk := fun _ => false
  spacyLoadOk := fun _ => false
  spacyDownloadOk := fun _ => false
  geoDbExistsNonempty := false
  geoInstantiateOk := false
  geoDownloadOk := false

/-- An environment in which the `code` command is on the search path,
works, and every extension install exits zero. -/
def vEnvGood : VSCodeExt.VEnv where
  whichOk := fun c => c == "code"
  probeOk := fun _ => true
  system := OSKind.linux
  pathExists := fun _ => false
  pathProbeOk := fun _ => false
  username := ""
  extResult := fun _ => VSCodeExt.ExtResult.ok

/-- A Linux environment in which no editor command can be found. -/
def vEnvNone : VSCodeExt.VEnv where
  whichOk := fun _ => false
  probeOk := fun _ => false
  system := OSKind.linux
  pathExists := fun _ => false
  pathProbeOk := fun _ => false
  username := ""
  extResult := fun _ => VSCodeExt.ExtResult.err

/-- A fully healthy environment for `setup_python_environment.py` in
the state left behind by a successful earlier run: the environment
directory already exists and every command exits zero. -/
def setupEnvAllGood : SetupEnv.SEnv where
  pythonVersion := (3, 12)
  system := OSKind.linux
  venvDirExists := true
  rmtreeOk := true
  venvCreateOk := true
  pipVenvUpgradeOk := true
  pipVenvOk := fun _ => true
  kernelOk := true
  settingsOk := true
  nltkOk := true
  spacyVenvOk := fun _ => true
  geoVenvOk := true

/-- An environment for `setup_python_environment.py` in which
everything works except that installing `ipykernel` fails. -/
def setupEnvEssFail : SetupEnv.SEnv where
  pythonVersion := (3, 12)
  system := OSKind.linux
  venvDirExists := false
  rmtreeOk := true
  venvCreateOk := true
  pipVenvUpgradeOk := true
  pipVenvOk := fun p => !(p == "ipykernel")
  kernelOk := true
  settingsOk := true
  nltkOk := true
  spacyVenvOk := fun _ => true
  geoVenvOk := true

/-- An environment whose interpreter is Python 2.7. -/
def setupEnvBadVersion : SetupEnv.SEnv where
  pythonVersion := (2, 7)
  system := OSKind.linux
  venvDirExists := false
  rmtreeOk := false
  venvCreateOk := false
  pipVenvUpgradeOk := false
  pipVenvOk := fun _ => false
  kernelOk := false
  settingsOk := false
  nltkOk := false
  spacyVenvOk := fun _ => false
  geoVenvOk := false

/-- An example pre-existing editor settings mapping holding one
unrelated key. -/
def exampleSettings : String → Option SetupEnv.JVal := fun k =>
  if k = "editor.fontSize" then some (SetupEnv.JVal.str "14") else none


/-- C10: `create_virtual_environment` is destructive rather than
reusing existing state: whenever a directory already exists at the
target path it is recursively deleted before a fresh environment is
created, and after every successful call the environment at that path
is newly created. -/
theorem c10_venv_recreated_destructively (se : SetupEnv.SEnv) (p : String)
    (h : se.venvDirExists = true) :
    (SetupEnv.create_virtual_environment se p).2.head? = some (Acq.rmtree p)
    ∧ ((SetupEnv.create_virtual_environment se p).1 = true →
        (SetupEnv.create_virtual_environment se p).2
          = [Acq.rmtree p, Acq.venvCreate p]) := by
  by_cases h1 : se.rmtreeOk = true
  · by_cases h2 : se.venvCreateOk = true
    · simp [SetupEnv.create_virtual_environment, h, h1, h2]
    · simp [SetupEnv.create_virtual_environment, h, h1, h2]
  · simp [SetupEnv.create_virtual_environment, h, h1]

theorem c10_witness :
    (SetupEnv.create_virtual_environment setupEnvAllGood SetupEnv.venvName).2.head?
        = some (Acq.rmtree SetupEnv.venvName)
    ∧ ((SetupEnv.create_virtual_environment setupEnvAllGood SetupEnv.venvName).1 = true →
        (SetupEnv.create_virtual_environment setupEnvAllGood SetupEnv.venvName).2
          = [Acq.rmtree SetupEnv.venvName, Acq.venvCreate SetupEnv.venvName]) :=
  c10_venv_recreated_destructively setupEnvAllGood SetupEnv.venvName rfl

/-- C8: the editor-settings step merges a mapping of setting names to
values over any pre-existing settings mapping: the two interpreter-path
settings end up pointing at the isolated environment interpreter, and
every pre-existing key other than the keys being written keeps its old
value in the merged output. -/
theorem c8_settings_merge_preserves_other_keys
    (existing : String → Option SetupEnv.JVal) (p k : String)
    (h1 : k ≠ "python.pythonPath")
    (h2 : k ≠ "python.defaultInterpreterPath")
    (h3 : k ≠ "jupyter.kernels.filter") :
    SetupEnv.create_vscode_settings (some existing) p "python.pythonPath"
        = some (SetupEnv.JVal.str p)
    ∧ SetupEnv.create_vscode_settings (some existing) p "python.defaultInterpreterPath"
        = some (SetupEnv.JVal.str p)
    ∧ SetupEnv.create_vscode_settings (some existing) p k = existing k := by
  refine ⟨rfl, rfl, ?_⟩
  simp [SetupEnv.create_vscode_settings, SetupEnv.dictUpdate,
        SetupEnv.newSettings, h1, h2, h3]

theorem c8_witness :
    SetupEnv.create_vscode_settings (some exampleSettings) "ds101_env/bin/python"
        "python.pythonPath" = some (SetupEnv.JVal.str "ds101_env/bin/python")
    ∧ SetupEnv.create_vscode_settings (some exampleSettings) "ds101_env/bin/python"
        "python.defaultInterpreterPath" = some (SetupEnv.JVal.str "ds101_env/bin/python")
    ∧ SetupEnv.create_vscode_settings (some exampleSettings) "ds101_env/bin/python"
        "editor.fontSize" = exampleSettings "editor.fontSize" :=
  c8_settings_merge_preserves_other_keys exampleSettings "ds101_env/bin/python"
    "editor.fontSize" (by decide) (by decide) (by decide)

/-- C7: when a prerequisite check fails (interpreter version below 3.8,
or no working editor command found), each script terminates with exit
status 1 before issuing any acquisition command: the whole run records
nothing and acquires nothing. -/
theorem c7_prereq_failure_blocks_all_acquisition
    (ie : InstallsRequired.IREnv) (ve : VSCodeExt.VEnv) (se : SetupEnv.SEnv)
    (h1 : InstallsRequired.check_python_version ie.pythonVersion = false)
    (h2 : VSCodeExt.check_vscode_installed ve = none)
    (h3 : SetupEnv.check_python_version se.pythonVersion = false) :
    InstallsRequired.main ie = ⟨1, [], [], []⟩
    ∧ VSCodeExt.main ve = ⟨1, [], []⟩
    ∧ SetupEnv.main se = ⟨1, [], []⟩ := by
  refine ⟨?_, ?_, ?_⟩
  · simp [InstallsRequired.main, h1]
  · simp [VSCodeExt.main, h2]
  · simp [SetupEnv.main, h3]

theorem c7_witness :
    InstallsRequired.main irEnvBadVersion = ⟨1, [], [], []⟩
    ∧ VSCodeExt.main vEnvNone = ⟨1, [], []⟩
    ∧ SetupEnv.main setupEnvBadVersion = ⟨1, [], []⟩ :=
  c7_prereq_failure_blocks_all_acquisition irEnvBadVersion vEnvNone
    setupEnvBadVersion (by decide) (by decide) (by decide)

/-- C6: a capability whose initial detection reports satisfied issues
no acquisition command and is recorded as already satisfied: a package
whose (derived or explicit) import name resolves is never installed,
and an NLTK data package found by `nltk.data.find` is never
downloaded. -/
theorem c6_satisfied_detection_skips_acquisition
    (ie : InstallsRequired.IREnv) (pkg n : String)
    (h1 : ie.importOk (deriveImportName pkg) = true)
    (h2 : ie.importOk n = true)
    (h3 : ie.importOk "nltk" = true)
    (h4 : ie.nltkFindOk "tokenizers/punkt" = true) :
    InstallsRequired.check_and_install_package ie pkg none
        = ⟨Outcome.alreadySatisfied, []⟩
    ∧ InstallsRequired.check_and_install_package ie pkg (some n)
        = ⟨Outcome.alreadySatisfied, []⟩
    ∧ Acq.nltkDownload "punkt" ∉ InstallsRequired.check_and_download_nltk_data ie := by
  refine ⟨?_, ?_, ?_⟩
  · simp [InstallsRequired.check_and_install_package, h1]
  · simp [InstallsRequired.check_and_install_package, h2]
  · by_cases h5 : ie.nltkFindOk "vader_lexicon" = true
    · simp [InstallsRequired.check_and_download_nltk_data,
            InstallsRequired.nltkDataPackages, h3, h4, h5]
    · simp [InstallsRequired.check_and_download_nltk_data,
            InstallsRequired.nltkDataPackages, h3, h4, h5]

theorem c6_witness :
    InstallsRequired.check_and_install_package irEnvAllGood "pandas" none
        = ⟨Outcome.alreadySatisfied, []⟩
    ∧ InstallsRequired.check_and_install_package irEnvAllGood "pandas" (some "nltk")
        = ⟨Outcome.alreadySatisfied, []⟩
    ∧ Acq.nltkDownload "punkt" ∉ InstallsRequired.check_and_download_nltk_data irEnvAllGood :=
  c6_satisfied_detection_skips_acquisition irEnvAllGood "pandas" "nltk"
    rfl rfl rfl rfl

/-- C2 counterexample: in an environment where `pip install pandas`
exits zero but importing `pandas` still fails, the recorded outcome is
newly satisfied, although detection (which is never re-run) would still
report the capability unsatisfied — the claim demands `failed` here. -/
theorem c2_counterexample :
    (InstallsRequired.check_and_install_package irEnvUnsat "pandas" none).outcome
        = Outcome.newlySatisfied
    ∧ irEnvUnsat.importOk "pandas" = false := by decide

/-- C2 (amended): on a zero exit status from the acquisition command
the scripts record success immediately and never re-run detection: an
unsatisfied package whose `pip install` exits zero is recorded as newly
satisfied whatever the detection state, and an extension install that
exits zero is reported successful. -/
theorem c2_success_trusted_without_reverification
    (ie : InstallsRequired.IREnv) (pkg : String)
    (ve : VSCodeExt.VEnv) (cmd extId : String)
    (h1 : ie.importOk (deriveImportName pkg) = false)
    (h2 : ie.pipOk pkg = true)
    (h3 : ve.extResult extId = VSCodeExt.ExtResult.ok) :
    (InstallsRequired.check_and_install_package ie pkg none).outcome
        = Outcome.newlySatisfied
    ∧ (VSCodeExt.install_extension ve cmd extId).1 = true := by
  refine ⟨?_, ?_⟩
  · simp [InstallsRequired.check_and_install_package, h1, h2]
  · simp [VSCodeExt.install_extension, h3]

theorem c2_witness :
    (InstallsRequired.check_and_install_package irEnvUnsat "pandas" none).outcome
        = Outcome.newlySatisfied
    ∧ (VSCodeExt.install_extension vEnvGood "code" "ms-python.python").1 = true :=
  c2_success_trusted_without_reverification irEnvUnsat "pandas" vEnvGood
    "code" "ms-python.python" (by decide) rfl rfl

/-- C5 counterexample: for a package whose detection is unsatisfied the
acquisition command is issued, but it runs with no timeout and without
capturing the output streams — the claim demands a bounded timeout and
captured standard error. -/
theorem c5_counterexample :
    (InstallsRequired.check_and_install_package irEnvUnsat "pandas" none).acqs.map
        Acq.bounded = [false]
    ∧ (InstallsRequired.check_and_install_package irEnvUnsat "pandas" none).acqs.map
        Acq.captures = [false] := by decide

/-- C5 (amended): for an unsatisfied package capability the `pip
install` acquisition is invoked, but via `check_call` with no timeout
and no stream capture; only the editor-extension installer bounds its
acquisition with a 60-second timeout and captures the output streams;
and on the geoparser path where `appdirs` is importable but the
database is absent, no acquisition command is issued at all (the
function falls through returning `None`). -/
theorem c5_acquisition_invocation_characterization
    (ie : InstallsRequired.IREnv) (pkg : String)
    (ve : VSCodeExt.VEnv) (cmd extId : String)
    (h1 : ie.importOk (deriveImportName pkg) = false)
    (h2 : ie.importOk "geoparser" = true)
    (h3 : ie.importOk "appdirs" = true)
    (h4 : ie.geoDbExistsNonempty = false) :
    (InstallsRequired.check_and_install_package ie pkg none).acqs
        = [InstallsRequired.pipInstallCmd pkg]
    ∧ (InstallsRequired.pipInstallCmd pkg).bounded = false
    ∧ (InstallsRequired.pipInstallCmd pkg).captures = false
    ∧ (VSCodeExt.install_extension ve cmd extId).2
        = [VSCodeExt.installExtCmd cmd extId]
    ∧ (VSCodeExt.installExtCmd cmd extId).bounded = true
    ∧ (VSCodeExt.installExtCmd cmd extId).captures = true
    ∧ InstallsRequired.check_and_setup_geoparser ie = (none, []) := by
  refine ⟨?_, rfl, rfl, rfl, rfl, rfl, ?_⟩
  · by_cases h5 : ie.pipOk pkg = true
    · simp [InstallsRequired.check_and_install_package, h1, h5]
    · simp [InstallsRequired.check_and_install_package, h1, h5]
  · simp [InstallsRequired.check_and_setup_geoparser, h2, h3, h4]

theorem c5_witness :
    (InstallsRequired.check_and_install_package irEnvUnsat "pandas" none).acqs
        = [InstallsRequired.pipInstallCmd "pandas"]
    ∧ (InstallsRequired.pipInstallCmd "pandas").bounded = false
    ∧ (InstallsRequired.pipInstallCmd "pandas").captures = false
    ∧ (VSCodeExt.install_extension vEnvGood "code" "ms-python.python").2
        = [VSCodeExt.installExtCmd "code" "ms-python.python"]
    ∧ (VSCodeExt.installExtCmd "code" "ms-python.python").bounded = true
    ∧ (VSCodeExt.installExtCmd "code" "ms-python.python").captures = true
    ∧ InstallsRequired.check_and_setup_geoparser irEnvUnsat = (none, []) :=
  c5_acquisition_invocation_characterization irEnvUnsat "pandas" vEnvGood
    "code" "ms-python.python" (by decide) (by decide) (by decide) rfl

theorem takeUntil_spec_eq (l : List Char) :
    takeUntilLt (takeUntilGe l) = takeUntilSpec l := by
  induction l with
  | nil => rfl
  | cons c cs ih =>
    simp only [takeUntilGe, takeUntilSpec]
    by_cases h2 : c = '>' ∧ cs.head? = some '='
    · have hne : ¬ c = '<' := by rw [h2.1]; decide
      simp [h2.1, h2.2, hne, takeUntilLt]
    · have hcond : ¬ ((c = '>' && cs.head? = some '=') = true) := by
        simpa [Bool.and_eq_true, decide_eq_true_eq] using h2
      rw [if_neg hcond, if_neg hcond]
      by_cases h1 : c = '<'
      · simp [takeUntilLt, h1]
      · simp [takeUntilLt, h1, ih]

/-- C9: when no explicit import name is given,
`check_and_install_package` derives the module name by truncating the
package name at the first `>=` or `<` (everything from that point
onward removed), and exactly that truncated string is what the import
probe is tried on. -/
theorem c9_import_name_strips_version_specifier :
    (∀ s : String, deriveImportName s = specStripVersion s)
    ∧ ∀ (ie : InstallsRequired.IREnv) (pkg : String),
        ((InstallsRequired.check_and_install_package ie pkg none).outcome
            = Outcome.alreadySatisfied
          ↔ ie.importOk (specStripVersion pkg) = true) := by
  have hderive : ∀ s : String, deriveImportName s = specStripVersion s := by
    intro s
    unfold deriveImportName specStripVersion
    rw [takeUntil_spec_eq]
  refine ⟨hderive, ?_⟩
  intro ie pkg
  simp only [InstallsRequired.check_and_install_package, hderive pkg]
  by_cases himp : ie.importOk (specStripVersion pkg) = true
  · simp [himp]
  · by_cases hpip : ie.pipOk pkg = true
    · simp [himp, hpip]
    · simp [himp, hpip]

/-- C1 counterexample: with everything healthy except that installing
the essential package `ipykernel` fails, the environment-setup run
aborts with exit status 1 after recording results for only the three
essential packages, not for the full 22-package list — a single
capability failure aborts the run and the report is incomplete. -/
theorem c1_counterexample :
    (SetupEnv.main setupEnvEssFail).exit = 1
    ∧ (SetupEnv.main setupEnvEssFail).results.map Prod.fst
        = SetupEnv.essentialPackages
    ∧ SetupEnv.essentialPackages ≠ SetupEnv.packages := by decide

theorem map_fst_pairing {α β : Type} (f : α → β) (l : List α) :
    (l.map (fun p => (p, f p))).map Prod.fst = l := by
  induction l with
  | nil => rfl
  | cons a t ih => rw [List.map_cons, List.map_cons, ih]

theorem map_fst_pairing2 {α β γ : Type} (f : α → β) (g : β → γ) (l : List α) :
    ((l.map (fun p => (p, f p))).map (fun s => (s.1, g s.2))).map Prod.fst
      = l := by
  induction l with
  | nil => rfl
  | cons a t ih => rw [List.map_cons, List.map_cons, List.map_cons, ih]

/-- C1 (amended): the extension installer and the package installer
produce exactly one result per input capability, in input order, never
aborting on a per-item failure; the environment-setup run does so as
well only when the virtual environment is created and all three
essential Jupyter packages install — a failing essential package aborts
it early with an incomplete report. -/
theorem c1_per_item_results_in_input_order
    (ve : VSCodeExt.VEnv) (ie : InstallsRequired.IREnv) (se : SetupEnv.SEnv)
    (hv : (VSCodeExt.check_vscode_installed ve).isSome = true)
    (hi : InstallsRequired.check_python_version ie.pythonVersion = true)
    (hs1 : SetupEnv.check_python_version se.pythonVersion = true)
    (hs2 : (SetupEnv.create_virtual_environment se SetupEnv.venvName).1 = true)
    (hs3 : ∀ p ∈ SetupEnv.essentialPackages, se.pipVenvOk p = true) :
    (VSCodeExt.main ve).results.map Prod.fst = VSCodeExt.extensions.map Prod.fst
    ∧ (InstallsRequired.main ie).results.map Prod.fst
        = InstallsRequired.corePackages
    ∧ (SetupEnv.main se).results.map Prod.fst = SetupEnv.packages := by
  refine ⟨?_, ?_, ?_⟩
  · obtain ⟨c, hc⟩ := Option.isSome_iff_exists.mp hv
    simp [VSCodeExt.main, hc, List.map_map]
  · simp only [InstallsRequired.main, hi, Bool.not_true, Bool.false_eq_true,
               if_false, List.map_append]
    rw [map_fst_pairing2 (fun p =>
          InstallsRequired.check_and_install_package ie p none)
        InstallsRequired.Step.outcome,
        map_fst_pairing2 (fun p =>
          InstallsRequired.check_and_install_package ie p none)
        InstallsRequired.Step.outcome]
    decide
  · have ha : (SetupEnv.essentialPackages.map
        (fun p => (p, se.pipVenvOk p))).any (fun s => !s.2) = false := by
      have e1 := hs3 "ipykernel" (by decide)
      have e2 := hs3 "jupyterlab" (by decide)
      have e3 := hs3 "jupyter" (by decide)
      simp [SetupEnv.essentialPackages, e1, e2, e3]
    rcases Bool.dichotomy se.kernelOk with hk | hk <;>
      · simp only [SetupEnv.main, hs1, hs2, ha, hk, Bool.not_true,
                   Bool.not_false, Bool.false_eq_true, eq_self_iff_true,
                   if_false, if_true, List.map_append]
        rw [map_fst_pairing se.pipVenvOk, map_fst_pairing se.pipVenvOk]
        decide

theorem c1_witness :
    (VSCodeExt.main vEnvGood).results.map Prod.fst
        = VSCodeExt.extensions.map Prod.fst
    ∧ (InstallsRequired.main irEnvAllGood).results.map Prod.fst
        = InstallsRequired.corePackages
    ∧ (SetupEnv.main setupEnvAllGood).results.map Prod.fst = SetupEnv.packages :=
  c1_per_item_results_in_input_order vEnvGood irEnvAllGood setupEnvAllGood
    (by decide) (by decide) (by decide) (by decide) (fun p _ => rfl)

/-- C3 counterexample: in an environment where the interpreter version
check (the only prerequisite check of the setup script) passes and the
virtual environment is created, the failure of the `ipykernel`
acquisition alone forces a nonzero exit status — the claim says
per-item acquisition failures never do. -/
theorem c3_counterexample :
    SetupEnv.check_python_version setupEnvEssFail.pythonVersion = true
    ∧ (SetupEnv.create_virtual_environment setupEnvEssFail SetupEnv.venvName).1 = true
    ∧ (SetupEnv.main setupEnvEssFail).exit = 1 := by decide

/-- C3 (amended): `installs_required.py` exits zero exactly when the
interpreter version check passes, and `install_vscode_extensions.py`
exits zero exactly when a working editor command is found — per-item
acquisition failures never force a nonzero exit there; but
`setup_python_environment.py` exits zero only when additionally the
virtual environment is created, all three essential Jupyter package
acquisitions succeed and the kernel registration succeeds. -/
theorem c3_exit_status_characterization
    (ie : InstallsRequired.IREnv) (ve : VSCodeExt.VEnv) (se : SetupEnv.SEnv) :
    ((InstallsRequired.main ie).exit = 0
       ↔ InstallsRequired.check_python_version ie.pythonVersion = true)
    ∧ ((VSCodeExt.main ve).exit = 0
       ↔ (VSCodeExt.check_vscode_installed ve).isSome = true)
    ∧ ((SetupEnv.main se).exit = 0
       ↔ (SetupEnv.check_python_version se.pythonVersion = true
           ∧ (SetupEnv.create_virtual_environment se SetupEnv.venvName).1 = true
           ∧ (∀ p ∈ SetupEnv.essentialPackages, se.pipVenvOk p = true)
           ∧ se.kernelOk = true)) := by
  refine ⟨?_, ?_, ?_⟩
  · rcases Bool.dichotomy
        (InstallsRequired.check_python_version ie.pythonVersion) with h | h <;>
      simp [InstallsRequired.main, h]
  · cases h : VSCodeExt.check_vscode_installed ve <;> simp [VSCodeExt.main, h]
  · have hany : ((SetupEnv.essentialPackages.map
        (fun p => (p, se.pipVenvOk p))).any (fun s => !s.2) = false)
        ↔ (∀ p ∈ SetupEnv.essentialPackages, se.pipVenvOk p = true) := by
      simp [SetupEnv.essentialPackages]
    rcases Bool.dichotomy (SetupEnv.check_python_version se.pythonVersion)
        with h1 | h1
    · simp [SetupEnv.main, h1]
    · rcases Bool.dichotomy
          (SetupEnv.create_virtual_environment se SetupEnv.venvName).1
          with h2 | h2
      · simp [SetupEnv.main, h1, h2]
      · by_cases h3 : ∀ p ∈ SetupEnv.essentialPackages, se.pipVenvOk p = true
        · have ha := hany.mpr h3
          rcases Bool.dichotomy se.kernelOk with h4 | h4
          · simp [SetupEnv.main, h1, h2, ha, h3, h4]
          · simp [SetupEnv.main, h1, h2, ha, h4]
            exact h3
        · have ha : (SetupEnv.essentialPackages.map
              (fun p => (p, se.pipVenvOk p))).any (fun s => !s.2) = true := by
            rcases Bool.dichotomy ((SetupEnv.essentialPackages.map
                (fun p => (p, se.pipVenvOk p))).any (fun s => !s.2)) with hb | hb
            · exact absurd (hany.mp hb) h3
            · exact hb
          simp [SetupEnv.main, h1, h2, ha, h3]

/-- C4 counterexample: in the fully satisfied state left behind by a
successful earlier run (environment directory present, every command
succeeding), a second run of the setup script still recreates the
virtual environment and re-issues the spaCy model download — the claim
says a second run over an already-satisfied set issues zero acquisition
commands. -/
theorem c4_counterexample :
    Acq.venvCreate SetupEnv.venvName ∈ (SetupEnv.main setupEnvAllGood).acqs
    ∧ SetupEnv.spacyVenvCmd OSKind.linux SetupEnv.venvName "en_core_web_sm"
        ∈ (SetupEnv.main setupEnvAllGood).acqs := by decide

/-- C4 (amended): in `installs_required.py` every capability is guarded
by detection, so a run over an already fully satisfied environment
issues zero capability acquisition commands (only the unconditional pip
self-upgrade preparation runs); `setup_python_environment.py` instead
recreates the environment and re-issues its downloads unconditionally
on every run. -/
theorem c4_second_run_issues_no_acquisitions
    (ie : InstallsRequired.IREnv)
    (hv : InstallsRequired.check_python_version ie.pythonVersion = true)
    (h1 : ∀ p ∈ InstallsRequired.corePackages,
        ie.importOk (deriveImportName p) = true)
    (h2 : ∀ pp ∈ InstallsRequired.nltkDataPackages, ie.nltkFindOk pp.2 = true)
    (h3 : ∀ m ∈ InstallsRequired.spacyModels, ie.spacyLoadOk m = true)
    (h4 : ie.importOk "appdirs" = true) :
    (InstallsRequired.main ie).acqs = [] := by
  have hstep : ∀ p ∈ InstallsRequired.corePackages,
      (InstallsRequired.check_and_install_package ie p none).acqs = [] := by
    intro p hp
    simp [InstallsRequired.check_and_install_package, h1 p hp]
  have hnltkimp : ie.importOk "nltk" = true := by
    have h := h1 "nltk" (by decide)
    have hd : deriveImportName "nltk" = "nltk" := by decide
    rwa [hd] at h
  have hspacyimp : ie.importOk "spacy" = true := by
    have h := h1 "spacy" (by decide)
    have hd : deriveImportName "spacy" = "spacy" := by decide
    rwa [hd] at h
  have hgeoimp : ie.importOk "geoparser" = true := by
    have h := h1 "geoparser" (by decide)
    have hd : deriveImportName "geoparser" = "geoparser" := by decide
    rwa [hd] at h
  have hnltk : InstallsRequired.check_and_download_nltk_data ie = [] := by
    have e1 := h2 ("punkt", "tokenizers/punkt") (by decide)
    have e2 := h2 ("vader_lexicon", "vader_lexicon") (by decide)
    simp only at e1 e2
    simp [InstallsRequired.check_and_download_nltk_data,
          InstallsRequired.nltkDataPackages, hnltkimp, e1, e2]
  have hspacy : InstallsRequired.check_and_download_spacy_model ie = [] := by
    have e1 := h3 "en_core_web_sm" (by decide)
    have e2 := h3 "en_core_web_md" (by decide)
    have e3 := h3 "en_core_web_trf" (by decide)
    simp [InstallsRequired.check_and_download_spacy_model,
          InstallsRequired.spacyModels, hspacyimp, e1, e2, e3]
  have hgeo : (InstallsRequired.check_and_setup_geoparser ie).2 = [] := by
    rcases Bool.dichotomy ie.geoDbExistsNonempty with hdb | hdb
    · simp [InstallsRequired.check_and_setup_geoparser, hgeoimp, h4, hdb]
    · rcases Bool.dichotomy ie.geoInstantiateOk with hin | hin <;>
        simp [InstallsRequired.check_and_setup_geoparser, hgeoimp, h4, hdb, hin]
  simp only [InstallsRequired.main, hv, Bool.not_true, Bool.false_eq_true,
             if_false]
  rw [hnltk, hspacy, hgeo]
  simp only [List.append_nil]
  rw [List.flatten_eq_nil_iff]
  intro y hy
  rw [List.map_append] at hy
  rcases List.mem_append.mp hy with hl | hr
  · rcases List.mem_map.mp hl with ⟨s, hs, rfl⟩
    rcases List.mem_map.mp hs with ⟨p, hp, rfl⟩
    have hpc : p ∈ InstallsRequired.corePackages := by
      simp [InstallsRequired.essentialPackages] at hp
      subst hp
      decide
    exact hstep p hpc
  · rcases List.mem_map.mp hr with ⟨s, hs, rfl⟩
    rcases List.mem_map.mp hs with ⟨p, hp, rfl⟩
    exact hstep p (List.mem_of_mem_filter hp)

theorem c4_witness : (InstallsRequired.main irEnvAllGood).acqs = [] :=
  c4_second_run_issues_no_acquisitions irEnvAllGood (by decide)
    (fun p _ => rfl) (fun pp _ => rfl) (fun m _ => rfl) rfl
